import Mathlib

/-!
Verification of the `useSupabase` hook in `src/supabase-sdk.js` of
`@reenvision-ai/reai-os-sdk`.

The hook reads four URL query parameters (`supabaseUrl`, `supabaseKey`,
`accessToken`, `refreshToken`), builds a client, assigns a session, and runs a
one-time app initialization gated by a row of the `app_installations` table.
We embed the body of the `setupClient` routine as a function from the hook
inputs and an environment of external-call outcomes to a trace of events
(external calls and React state-setter calls); the final hook state is the
fold of the setter events over the initial state
`{supabase: null, error: null, loading: true, isInitialized: false}`.

A central fact of the source: at the installation lookup (line 40,
`.eq('app_id', appID).single()`) the identifier `appID` is not declared
anywhere in the module — the hook option is named `appId`.  The file is an ES
module, so reading the undeclared identifier `appID` raises
`ReferenceError: appID is not defined` while the query is still being built,
before it is awaited; no lookup request is issued.  Hence every activation
that passes parameter validation, client construction and session assignment
throws at that point, and lines 41-65 (the lookup error check, the
`initialize` callback, the upsert, `setIsInitialized`, `setSupabase`) are
unreachable.  `tryBody` below embeds the source as written (the throw at the
`appID` reference); `tryBodyFixed` embeds the very same source lines with the
single identifier `appID` corrected to `appId`, to settle what the otherwise
unreachable lines 41-65 do.
-/

namespace ReaiOsSdk

/-- JavaScript falsiness of a `URLSearchParams.get` result: the value is
falsy exactly when it is `null` (parameter absent) or the empty string. -/
def jsFalsy : Option String → Bool
  | none => true
  | some s => s == ""

/-- The four values read from the iframe URL query string (lines 21-24):
`params.get` returns the string value or `null`. -/
structure QueryParams where
  supabaseUrl : Option String
  supabaseKey : Option String
  accessToken : Option String
  refreshToken : Option String
deriving Repr, DecidableEq

/-- The client produced by `createClient(supabaseUrl, supabaseKey)` followed
by `client.auth.setSession({access_token, refresh_token})` (lines 32-38). -/
structure Client where
  url : String
  key : String
  accessToken : String
  refreshToken : String
deriving Repr, DecidableEq

/-- An error object returned by the backend, carrying the `code` field the
source inspects (`installError.code !== 'PGRST116'`, line 41). -/
structure DbError where
  code : String
deriving Repr, DecidableEq

/-- The row shape produced by `.select('initialized')` on
`app_installations`. -/
structure Row where
  initialized : Bool
deriving Repr, DecidableEq

/-- The `{data, error}` pair a lookup query resolves to (line 40
destructures `{data: installData, error: installError}`). -/
structure LookupResult where
  data : Option Row
  error : Option DbError
deriving Repr, DecidableEq

/-- Values thrown inside the `try` block of `setupClient`. -/
inductive JsError where
  /-- `new Error('Missing required URL parameters: supabaseUrl, supabaseKey,
  accessToken, or refreshToken')`, line 28. -/
  | missingParams
  /-- `ReferenceError: <name> is not defined` raised by reading an
  undeclared identifier. -/
  | referenceError (name : String)
  /-- A backend error object re-thrown (`throw installError`, line 42;
  `if (upsertError) throw upsertError`, line 57). -/
  | dbError (e : DbError)
  /-- An arbitrary error thrown by an awaited external call or by the
  caller-supplied callback. -/
  | jsThrow (msg : String)
deriving Repr, DecidableEq

/-- Outcomes of the external calls, chosen by the environment: whether
`createClient` throws, whether the awaited `setSession` rejects, what
`{data, error}` the installation lookup resolves to for a given `app_id`,
and what `error` the upsert resolves to. -/
structure Env where
  createClientErr : String → String → Option JsError
  setSessionErr : String → String → Option JsError
  lookup : String → LookupResult
  upsert : String → Bool → Option DbError

/-- One observable step of an activation: an external call, or a React
state-setter call. -/
inductive Event where
  | createClientCall (url key : String)
  | setSessionCall (access refresh : String)
  | lookupCall (appId : String)
  | initCall (c : Client)
  | upsertCall (appId : String) (flag : Bool)
  | setSupabase (c : Client)
  | setError (e : JsError)
  | setLoading (b : Bool)
  | setIsInitialized (b : Bool)
deriving Repr, DecidableEq

/-- The four state fields the hook returns (line 77). -/
structure HookState where
  supabase : Option Client
  error : Option JsError
  loading : Bool
  isInitialized : Bool
deriving Repr, DecidableEq

/-- `useState(null), useState(null), useState(true), useState(false)`
(lines 11-14). -/
def initialHookState : HookState :=
  { supabase := none, error := none, loading := true, isInitialized := false }

/-- Effect of one event on the hook state: setter events update their field,
external-call events leave the state unchanged. -/
def applyEvent (s : HookState) : Event → HookState
  | .setSupabase c => { s with supabase := some c }
  | .setError e => { s with error := some e }
  | .setLoading b => { s with loading := b }
  | .setIsInitialized b => { s with isInitialized := b }
  | _ => s

/-- Final hook state after a trace of events, starting from the initial
state. -/
def runEvents (evs : List Event) : HookState :=
  evs.foldl applyEvent initialHookState

/-- The `try` block of `setupClient` (lines 18-66), embedded as written in
the source.  Returns the events emitted and the value thrown, if any.
Control flow: validate the four parameters with JavaScript falsiness
(line 27); construct the client (line 32, may throw); await `setSession`
(line 35, may reject); then evaluate the lookup chain
`client.from('app_installations').select('initialized').eq('app_id', appID)`
(line 40).  `appID` is an undeclared identifier (the option is `appId`), so
this evaluation raises `ReferenceError: appID is not defined` before any
lookup request is issued; the rest of the `try` block (lines 41-65) is
unreachable.  Consequently this embedding does not depend on `appId`, on the
callback, or on the lookup/upsert behavior of the environment. -/
def tryBody (p : QueryParams) (env : Env) : List Event × Option JsError :=
  if jsFalsy p.supabaseUrl || jsFalsy p.supabaseKey
      || jsFalsy p.accessToken || jsFalsy p.refreshToken then
    ([], some .missingParams)
  else
    let url := p.supabaseUrl.getD ""
    let key := p.supabaseKey.getD ""
    let access := p.accessToken.getD ""
    let refresh := p.refreshToken.getD ""
    match env.createClientErr url key with
    | some e => ([.createClientCall url key], some e)
    | none =>
      match env.setSessionErr access refresh with
      | some e => ([.createClientCall url key, .setSessionCall access refresh], some e)
      | none =>
        ([.createClientCall url key, .setSessionCall access refresh],
          some (.referenceError "appID"))

/-- The whole of `setupClient` (lines 17-72): run the `try` block; on a
thrown value, the `catch` block calls `setError(err)` (line 68); the
`finally` block always calls `setLoading(false)` (line 70).  The `appId` and
`init` arguments of the hook are accepted for signature parity with
`useSupabase({appId, initialize})`; the source only uses them on the
unreachable lines 40-55, so the embedding ignores them. -/
def setupClient (appId : String) (p : QueryParams) (env : Env)
    (init : Client → Except JsError Unit) : List Event :=
  let r := tryBody p env
  match r.2 with
  | some e => r.1 ++ [.setError e, .setLoading false]
  | none => r.1 ++ [.setLoading false]

/-- The state the hook settles into after one activation of `setupClient`. -/
def hookResult (appId : String) (p : QueryParams) (env : Env)
    (init : Client → Except JsError Unit) : HookState :=
  runEvents (setupClient appId p env init)

/-- The `try` block of `setupClient` with the single undeclared identifier
`appID` of line 40 corrected to `appId` — the evident intent, since the
option destructured on line 10 is `appId`, the upsert on line 55 writes
`{app_id: appId, ...}`, and the README documents the `appId` option.  This
embeds lines 18-66 in full: after session assignment, await the lookup for
`appId` (resolving to `{data: installData, error: installError}`); throw
`installError` when present with a code other than `'PGRST116'` (no rows
found); compute `alreadyInitialized = installData?.initialized || false`;
when not already initialized, await `initialize(client)` (may throw), then
await the upsert of `{app_id: appId, initialized: true}` and throw its
error when present, then `setIsInitialized(true)`; when already
initialized, just `setIsInitialized(true)`; finally `setSupabase(client)`. -/
def tryBodyFixed (appId : String) (p : QueryParams) (env : Env)
    (init : Client → Except JsError Unit) : List Event × Option JsError :=
  if jsFalsy p.supabaseUrl || jsFalsy p.supabaseKey
      || jsFalsy p.accessToken || jsFalsy p.refreshToken then
    ([], some .missingParams)
  else
    let url := p.supabaseUrl.getD ""
    let key := p.supabaseKey.getD ""
    let access := p.accessToken.getD ""
    let refresh := p.refreshToken.getD ""
    match env.createClientErr url key with
    | some e => ([.createClientCall url key], some e)
    | none =>
      match env.setSessionErr access refresh with
      | some e => ([.createClientCall url key, .setSessionCall access refresh], some e)
      | none =>
        let client : Client :=
          { url := url, key := key, accessToken := access, refreshToken := refresh }
        let lr := env.lookup appId
        let evs := [Event.createClientCall url key,
          Event.setSessionCall access refresh, Event.lookupCall appId]
        let lookupThrow : Option DbError :=
          match lr.error with
          | some dbe => if dbe.code = "PGRST116" then none else some dbe
          | none => none
        match lookupThrow with
        | some dbe => (evs, some (.dbError dbe))
        | none =>
          let alreadyInitialized := (lr.data.map Row.initialized).getD false
          if alreadyInitialized then
            (evs ++ [.setIsInitialized true, .setSupabase client], none)
          else
            match init client with
            | .error e => (evs ++ [.initCall client], some e)
            | .ok _ =>
              match env.upsert appId true with
              | some ue =>
                (evs ++ [.initCall client, .upsertCall appId true],
                  some (.dbError ue))
              | none =>
                (evs ++ [.initCall client, .upsertCall appId true,
                  .setIsInitialized true, .setSupabase client], none)

/-- `setupClient` built on `tryBodyFixed`: same `catch`/`finally` wrapper as
`setupClient`. -/
def setupClientFixed (appId : String) (p : QueryParams) (env : Env)
    (init : Client → Except JsError Unit) : List Event :=
  let r := tryBodyFixed appId p env init
  match r.2 with
  | some e => r.1 ++ [.setError e, .setLoading false]
  | none => r.1 ++ [.setLoading false]

/-- Final hook state for one activation of the intent-corrected routine. -/
def hookResultFixed (appId : String) (p : QueryParams) (env : Env)
    (init : Client → Except JsError Unit) : HookState :=
  runEvents (setupClientFixed appId p env init)

/-- Is the event one of the four backend interactions named by the spec:
client construction, session assignment, installation lookup, or upsert? -/
def isBackendCall : Event → Bool
  | .createClientCall _ _ => true
  | .setSessionCall _ _ => true
  | .lookupCall _ => true
  | .upsertCall _ _ => true
  | _ => false

/-- Is the event an invocation of the caller-supplied callback? -/
def isInitCall : Event → Bool
  | .initCall _ => true
  | _ => false

/-- Is the event an installation-record lookup? -/
def isLookupCall : Event → Bool
  | .lookupCall _ => true
  | _ => false

/-- Is the event an upsert of the installation record? -/
def isUpsertCall : Event → Bool
  | .upsertCall _ _ => true
  | _ => false

/-- Is the event a `setLoading` call? -/
def isSetLoading : Event → Bool
  | .setLoading _ => true
  | _ => false

/-- Is the event a React state-setter call? -/
def isSetter : Event → Bool
  | .setSupabase _ => true
  | .setError _ => true
  | .setLoading _ => true
  | .setIsInitialized _ => true
  | _ => false

/-- How many times the caller-supplied callback is invoked in a trace. -/
def initCallCount (evs : List Event) : Nat :=
  evs.countP fun e => isInitCall e

/-- One hook activation: the identifying inputs and the outcomes of the
external world during it. -/
structure Activation where
  p : QueryParams
  env : Env
  init : Client → Except JsError Unit

/-- Query parameters with all four values present and non-empty. -/
def pAll : QueryParams :=
  { supabaseUrl := some "u", supabaseKey := some "k",
    accessToken := some "a", refreshToken := some "r" }

/-- The client built from the `pAll` parameters after session assignment. -/
def clientAll : Client :=
  { url := "u", key := "k", accessToken := "a", refreshToken := "r" }

/-- A callback that succeeds without doing anything (the source default
`defaultInitialize`). -/
def initNoop : Client → Except JsError Unit := fun _ => .ok ()

/-- A callback that throws. -/
def initThrow : Client → Except JsError Unit := fun _ => .error (.jsThrow "boom")

/-- Environment where construction and session succeed and the lookup
resolves to the PGRST116 no-rows condition (no installation record), and
the upsert succeeds. -/
def envNoRows : Env :=
  { createClientErr := fun _ _ => none
    setSessionErr := fun _ _ => none
    lookup := fun _ => { data := none, error := some { code := "PGRST116" } }
    upsert := fun _ _ => none }

/-- Environment where the lookup finds a row already flagged initialized. -/
def envRowInit : Env :=
  { createClientErr := fun _ _ => none
    setSessionErr := fun _ _ => none
    lookup := fun _ => { data := some { initialized := true }, error := none }
    upsert := fun _ _ => none }

/-- Environment where the lookup fails with an error other than the
PGRST116 no-rows sentinel. -/
def envLookupFail : Env :=
  { createClientErr := fun _ _ => none
    setSessionErr := fun _ _ => none
    lookup := fun _ => { data := none, error := some { code := "500" } }
    upsert := fun _ _ => none }

/-- The `try` block of the source always throws: it ends in the missing
parameter error, a `createClient` throw, a `setSession` rejection, or — on
every activation that gets past session assignment — the
`ReferenceError` for the undeclared `appID`.  The emitted events are
correspondingly nothing, the construction call, or the construction and
session calls. -/
theorem tryBody_shape (p : QueryParams) (env : Env) :
    tryBody p env = ([], some .missingParams) ∨
    (∃ u k e, tryBody p env = ([.createClientCall u k], some e)) ∨
    (∃ u k a r e, tryBody p env =
      ([.createClientCall u k, .setSessionCall a r], some e)) := by
  unfold tryBody
  split
  · exact Or.inl rfl
  · dsimp only
    split
    · exact Or.inr (Or.inl ⟨_, _, _, rfl⟩)
    · split
      · exact Or.inr (Or.inr ⟨_, _, _, _, _, rfl⟩)
      · exact Or.inr (Or.inr ⟨_, _, _, _, _, rfl⟩)

/-- C1: when any one of the four URL query parameters is absent, the
activation ends with the missing-required-parameters error, a null client,
and no backend call (client construction, session assignment, lookup,
upsert) is made. -/
theorem missing_param_error_no_backend_calls (appId : String) (p : QueryParams)
    (env : Env) (init : Client → Except JsError Unit)
    (h : p.supabaseUrl = none ∨ p.supabaseKey = none ∨
      p.accessToken = none ∨ p.refreshToken = none) :
    (hookResult appId p env init).error = some .missingParams ∧
    (hookResult appId p env init).supabase = none ∧
    ∀ ev ∈ setupClient appId p env init, isBackendCall ev = false := by
  have hc : (jsFalsy p.supabaseUrl || jsFalsy p.supabaseKey
      || jsFalsy p.accessToken || jsFalsy p.refreshToken) = true := by
    rcases h with h | h | h | h <;> simp [h, jsFalsy]
  have ht : tryBody p env = ([], some .missingParams) := by
    unfold tryBody
    simp [hc]
  simp [hookResult, setupClient, ht, runEvents, applyEvent, initialHookState,
    isBackendCall]

/-- Closed witness for `missing_param_error_no_backend_calls` at a concrete
input with `refreshToken` absent. -/
theorem missing_param_error_no_backend_calls_witness :
    (hookResult "my-app"
      { supabaseUrl := some "u", supabaseKey := some "k",
        accessToken := some "a", refreshToken := none }
      envNoRows initNoop).error = some .missingParams ∧
    (hookResult "my-app"
      { supabaseUrl := some "u", supabaseKey := some "k",
        accessToken := some "a", refreshToken := none }
      envNoRows initNoop).supabase = none ∧
    ∀ ev ∈ setupClient "my-app"
      { supabaseUrl := some "u", supabaseKey := some "k",
        accessToken := some "a", refreshToken := none }
      envNoRows initNoop, isBackendCall ev = false :=
  missing_param_error_no_backend_calls "my-app"
    { supabaseUrl := some "u", supabaseKey := some "k",
      accessToken := some "a", refreshToken := none }
    envNoRows initNoop (Or.inr (Or.inr (Or.inr rfl)))

/-- C10: a parameter bound to the empty string is treated exactly like an
absent one — the falsiness check rejects it, so the activation ends with
the missing-required-parameters error and a null client. -/
theorem empty_string_param_treated_as_missing (appId : String)
    (p : QueryParams) (env : Env) (init : Client → Except JsError Unit)
    (h : p.supabaseUrl = some "" ∨ p.supabaseKey = some "" ∨
      p.accessToken = some "" ∨ p.refreshToken = some "") :
    (hookResult appId p env init).error = some .missingParams ∧
    (hookResult appId p env init).supabase = none := by
  have hc : (jsFalsy p.supabaseUrl || jsFalsy p.supabaseKey
      || jsFalsy p.accessToken || jsFalsy p.refreshToken) = true := by
    rcases h with h | h | h | h <;> simp [h, jsFalsy]
  have ht : tryBody p env = ([], some .missingParams) := by
    unfold tryBody
    simp [hc]
  simp [hookResult, setupClient, ht, runEvents, applyEvent, initialHookState]

/-- Closed witness for `empty_string_param_treated_as_missing` with
`supabaseKey` present but empty. -/
theorem empty_string_param_treated_as_missing_witness :
    (hookResult "my-app"
      { supabaseUrl := some "u", supabaseKey := some "",
        accessToken := some "a", refreshToken := some "r" }
      envNoRows initNoop).error = some .missingParams ∧
    (hookResult "my-app"
      { supabaseUrl := some "u", supabaseKey := some "",
        accessToken := some "a", refreshToken := some "r" }
      envNoRows initNoop).supabase = none :=
  empty_string_param_treated_as_missing "my-app"
    { supabaseUrl := some "u", supabaseKey := some "",
      accessToken := some "a", refreshToken := some "r" }
    envNoRows initNoop (Or.inr (Or.inl rfl))

/-- C7: in every activation the loading flag starts true, exactly one
`setLoading` call occurs, that call carries `false` (no transition back to
true), and the terminal loading flag is false. -/
theorem loading_true_to_false_exactly_once (appId : String) (p : QueryParams)
    (env : Env) (init : Client → Except JsError Unit) :
    initialHookState.loading = true ∧
    (setupClient appId p env init).countP (fun ev => isSetLoading ev) = 1 ∧
    Event.setLoading true ∉ setupClient appId p env init ∧
    (hookResult appId p env init).loading = false := by
  rcases tryBody_shape p env with h | ⟨u, k, e, h⟩ | ⟨u, k, a, r, e, h⟩ <;>
    simp [setupClient, hookResult, runEvents, applyEvent, initialHookState, h,
      isSetLoading, List.countP_cons, List.countP_nil]

/-- C9: the terminal state of every activation has exactly one of the
client handle and the error non-null, its initialized flag true exactly
when the client is non-null, and loading false. -/
theorem terminal_state_invariant_holds (appId : String) (p : QueryParams)
    (env : Env) (init : Client → Except JsError Unit) :
    (((hookResult appId p env init).error ≠ none ∧
        (hookResult appId p env init).supabase = none) ∨
      ((hookResult appId p env init).error = none ∧
        (hookResult appId p env init).supabase ≠ none)) ∧
    ((hookResult appId p env init).isInitialized = true ↔
      (hookResult appId p env init).supabase ≠ none) ∧
    (hookResult appId p env init).loading = false := by
  rcases tryBody_shape p env with h | ⟨u, k, e, h⟩ | ⟨u, k, a, r, e, h⟩ <;>
    simp [setupClient, hookResult, runEvents, applyEvent, initialHookState, h]

/-- C8: for a fixed application identifier, across any finite sequence of
activations run one after the other, the caller-supplied callback is
executed at most once in total.  (In the code as written it is in fact
executed zero times: the `ReferenceError` for the undeclared `appID` is
raised before the initialization gate is ever reached.) -/
theorem init_callback_at_most_once_per_app (appId : String)
    (acts : List Activation) :
    ((acts.map fun a => initCallCount (setupClient appId a.p a.env a.init)).sum)
      ≤ 1 := by
  have hz : ∀ a : Activation,
      initCallCount (setupClient appId a.p a.env a.init) = 0 := by
    intro a
    rcases tryBody_shape a.p a.env with h | ⟨u, k, e, h⟩ | ⟨u, k, x, r, e, h⟩ <;>
      simp [initCallCount, setupClient, h, isInitCall, List.countP_cons,
        List.countP_nil]
  have hs : ((acts.map fun a =>
      initCallCount (setupClient appId a.p a.env a.init)).sum) = 0 := by
    induction acts with
    | nil => simp
    | cons a rest ih => simp [ih, hz a]
  omega

/-- C2 fails on the code: with all four parameters present and a healthy
backend, the activation performs no installation lookup at all — the query
chain of line 40 references the undeclared identifier `appID` and the
resulting `ReferenceError` is surfaced instead, with a null client. -/
theorem lookup_not_performed_appID_undeclared :
    (setupClient "my-app" pAll envNoRows initNoop).countP
      (fun ev => isLookupCall ev) = 0 ∧
    hookResult "my-app" pAll envNoRows initNoop =
      { supabase := none, error := some (.referenceError "appID"),
        loading := false, isInitialized := false } := by
  decide

/-- C3 fails on the code: even when the backend holds a row already flagged
initialized, the activation never reaches the lookup (`ReferenceError` for
`appID`), so it terminates with a non-null error and `isInitialized`
false, not with `isInitialized` true. -/
theorem already_initialized_row_not_honored :
    hookResult "my-app" pAll envRowInit initNoop =
      { supabase := none, error := some (.referenceError "appID"),
        loading := false, isInitialized := false } := by
  decide

/-- C4 fails on the code: with no installation record present (the
PGRST116 no-rows condition), the callback is never invoked and no upsert
happens — the `ReferenceError` for `appID` aborts the activation first. -/
theorem absent_record_callback_not_invoked :
    initCallCount (setupClient "my-app" pAll envNoRows initNoop) = 0 ∧
    (setupClient "my-app" pAll envNoRows initNoop).countP
      (fun ev => isUpsertCall ev) = 0 ∧
    hookResult "my-app" pAll envNoRows initNoop =
      { supabase := none, error := some (.referenceError "appID"),
        loading := false, isInitialized := false } := by
  decide

/-- C5's scenario is unreachable in the code: even with a callback that
throws, the callback is never invoked (zero invocation events) and the
surfaced error is the `ReferenceError` for `appID`, not the callback's
thrown value. -/
theorem throwing_callback_unreachable :
    initCallCount (setupClient "my-app" pAll envNoRows initThrow) = 0 ∧
    hookResult "my-app" pAll envNoRows initThrow =
      { supabase := none, error := some (.referenceError "appID"),
        loading := false, isInitialized := false } := by
  decide

/-- C6 fails on the code: when the backend would answer the lookup with an
error of code 500, no lookup is ever issued and the surfaced error is the
`ReferenceError` for `appID`, not the lookup error. -/
theorem lookup_failure_not_surfaced :
    (setupClient "my-app" pAll envLookupFail initNoop).countP
      (fun ev => isLookupCall ev) = 0 ∧
    hookResult "my-app" pAll envLookupFail initNoop =
      { supabase := none, error := some (.referenceError "appID"),
        loading := false, isInitialized := false } := by
  decide

/-- On the intent-corrected routine the lookup is issued with the
caller-supplied `appId`, and with a healthy backend the activation
succeeds: client stored, no error, `isInitialized` true.  Evidence that
C2's statement matches the evident intent of line 40. -/
theorem fixed_lookup_uses_appId :
    Event.lookupCall "my-app" ∈ setupClientFixed "my-app" pAll envNoRows initNoop ∧
    hookResultFixed "my-app" pAll envNoRows initNoop =
      { supabase := some clientAll,
        error := none, loading := false, isInitialized := true } := by
  decide

/-- On the intent-corrected routine a row already flagged initialized
skips the callback and the upsert and yields `isInitialized` true, as C3
states. -/
theorem fixed_already_initialized_skips_callback :
    initCallCount (setupClientFixed "my-app" pAll envRowInit initNoop) = 0 ∧
    (setupClientFixed "my-app" pAll envRowInit initNoop).countP
      (fun ev => isUpsertCall ev) = 0 ∧
    hookResultFixed "my-app" pAll envRowInit initNoop =
      { supabase := some clientAll,
        error := none, loading := false, isInitialized := true } := by
  decide

/-- On the intent-corrected routine, with no installation record, the
exact event order is: construction, session, lookup, one callback
invocation, then the upsert marking `initialized` true — as C4 states. -/
theorem fixed_absent_record_runs_callback_then_upserts :
    setupClientFixed "my-app" pAll envNoRows initNoop =
      [.createClientCall "u" "k", .setSessionCall "a" "r",
        .lookupCall "my-app", .initCall clientAll,
        .upsertCall "my-app" true, .setIsInitialized true,
        .setSupabase clientAll, .setLoading false] := by
  decide

/-- On the intent-corrected routine a throwing callback prevents the
upsert, surfaces the thrown value, and leaves `isInitialized` false — as
C5 states. -/
theorem fixed_callback_throw_no_upsert :
    (setupClientFixed "my-app" pAll envNoRows initThrow).countP
      (fun ev => isUpsertCall ev) = 0 ∧
    hookResultFixed "my-app" pAll envNoRows initThrow =
      { supabase := none, error := some (.jsThrow "boom"),
        loading := false, isInitialized := false } := by
  decide

/-- On the intent-corrected routine a lookup failure with a code other
than PGRST116 is surfaced as the error and the callback is never invoked —
as C6 states. -/
theorem fixed_lookup_failure_surfaced_no_callback :
    initCallCount (setupClientFixed "my-app" pAll envLookupFail initNoop) = 0 ∧
    hookResultFixed "my-app" pAll envLookupFail initNoop =
      { supabase := none, error := some (.dbError { code := "500" }),
        loading := false, isInitialized := false } := by
  decide

end ReaiOsSdk
